import Mathlib

/-!
Verification development for the shoonya-mcp-server trading gateway.

The Python sources are shallowly embedded:
* `src/shoonya_mcp_agent/agent.py` — `LiveMarketDataResource` (tick cache) and
  `ShoonyaMCPAgent.connect_shoonya_broker` (session connect flow);
* `src/mcp_server/app.py` — `place_order` validation, the `token_required`
  decorator and `subscribe_market_data` tracking.

Python dicts are modelled as association lists with update-or-append
semantics (first matching key is overwritten in place, new keys append),
Python floats as rationals, and nullable fields as `Option`.
-/

/-- Lookup in a Python-dict model: first entry whose key matches. -/
def dlookup {α : Type} : List (String × α) → String → Option α
  | [], _ => none
  | p :: m, k => if p.1 == k then some p.2 else dlookup m k

/-- Python dict assignment `d[k] = v`: overwrite the entry in place if the
key is present, append otherwise. -/
def dinsert {α : Type} : List (String × α) → String → α → List (String × α)
  | [], k, v => [(k, v)]
  | p :: m, k, v => if p.1 == k then (k, v) :: m else p :: dinsert m k v

/-- Character-level split on `|`, the model of Python's `key.split('|')`:
always returns at least one piece, keeps empty pieces. -/
def splitOnBarChars : List Char → List (List Char)
  | [] => [[]]
  | c :: cs =>
      if c = '|' then [] :: splitOnBarChars cs
      else
        match splitOnBarChars cs with
        | [] => [[c]]
        | p :: ps => (c :: p) :: ps

/-- Python `key.split('|')`. -/
def splitOnBar (key : String) : List String :=
  (splitOnBarChars key.toList).map (fun l => String.mk l)

/-- Whether the first list is an initial segment of the second. -/
def isInitialSegment : List Char → List Char → Bool
  | [], _ => true
  | _ :: _, [] => false
  | a :: as, b :: bs => a = b && isInitialSegment as bs

/-- Python `s.startswith(t)`. -/
def pyStartswith (s t : String) : Bool :=
  isInitialSegment t.toList s.toList

/-- Raw feed payload as delivered to `update_tick` (agent.py): a dict whose
fields use Shoonya's short aliases; every field may be absent. -/
structure RawTick where
  t : Option String := none
  e : Option String := none
  tk : Option String := none
  lp : Option ℚ := none
  lq : Option Int := none
  ap : Option ℚ := none
  v : Option Int := none
  c : Option ℚ := none
  o : Option ℚ := none
  h : Option ℚ := none
  l : Option ℚ := none
  cl : Option ℚ := none
  tbq : Option Int := none
  tsq : Option Int := none
  oi : Option Int := none
  ft : Option String := none
deriving DecidableEq, Repr

/-- `ShoonyaTickData` (agent.py lines 102-128): every field independently
present-or-absent. -/
structure ShoonyaTickData where
  type : Option String := none
  exchange : Option String := none
  token : Option String := none
  last_traded_price : Option ℚ := none
  last_traded_quantity : Option Int := none
  average_traded_price : Option ℚ := none
  volume : Option Int := none
  change_percent : Option ℚ := none
  open_price : Option ℚ := none
  high_price : Option ℚ := none
  low_price : Option ℚ := none
  close_price : Option ℚ := none
  total_buy_quantity : Option Int := none
  total_sell_quantity : Option Int := none
  open_interest : Option Int := none
  feed_timestamp : Option String := none
  mcp_received_timestamp : Option ℚ := none
deriving DecidableEq, Repr

/-- `ShoonyaTickData.parse_obj(tick_data)` (agent.py line 156): populate the
model from the raw payload through the field aliases; absent raw fields stay
absent on the model. -/
def ShoonyaTickData.parse_obj (r : RawTick) : ShoonyaTickData :=
  { type := r.t
    exchange := r.e
    token := r.tk
    last_traded_price := r.lp
    last_traded_quantity := r.lq
    average_traded_price := r.ap
    volume := r.v
    change_percent := r.c
    open_price := r.o
    high_price := r.h
    low_price := r.l
    close_price := r.cl
    total_buy_quantity := r.tbq
    total_sell_quantity := r.tsq
    open_interest := r.oi
    feed_timestamp := r.ft
    mcp_received_timestamp := none }

namespace MD

/-- State of `LiveMarketDataResource`: the `self._data` dict plus the log of
`notify_update` calls (each notification carries the key and the tick it was
emitted with). -/
structure State where
  data : List (String × ShoonyaTickData)
  notes : List (String × ShoonyaTickData)
deriving DecidableEq, Repr

/-- The empty resource, as built by `LiveMarketDataResource.__init__`. -/
def State.init : State := { data := [], notes := [] }

/-- `update_tick(instrument_key, tick_data)` (agent.py lines 143-169): if the
payload's declared kind `t` is not 'tf' or 'df', return with no mutation and
no notification; otherwise parse the payload, stamp `mcp_received_timestamp`
with the current loop time `now`, store the parsed tick under the key
(replacing any previous entry), and notify once with it. -/
def update_tick (st : State) (key : String) (r : RawTick) (now : ℚ) : State :=
  if r.t = some "tf" ∨ r.t = some "df" then
    let parsed : ShoonyaTickData :=
      { ShoonyaTickData.parse_obj r with mcp_received_timestamp := some now }
    { data := dinsert st.data key parsed
      notes := st.notes ++ [(key, parsed)] }
  else st

/-- The empty tick built by `initialize_instrument` for a key: only exchange
and token are populated, from `key.split('|')[0]` and `key.split('|')[1]`.
The Python indexing presumes a well-formed `EXCHANGE|TOKEN` key; it is
modelled with `List.get?`, total on all keys. -/
def emptyTickFor (key : String) : ShoonyaTickData :=
  { exchange := (splitOnBar key).get? 0
    token := (splitOnBar key).get? 1 }

/-- `initialize_instrument(instrument_key)` (agent.py lines 179-185): if the
key is absent, insert the empty tick for the key and notify once with it;
if the key is already present, do nothing and notify nothing. -/
def initialize_instrument (st : State) (key : String) : State :=
  if (dlookup st.data key).isSome then st
  else
    { data := dinsert st.data key (emptyTickFor key)
      notes := st.notes ++ [(key, emptyTickFor key)] }

end MD

namespace MDRef

/-!
Reference-level model of the cache's read operations. Python tick objects
are mutable; `get_instrument_data` returns `self._data.get(key)` — the stored
object itself — and `get_all_data` returns `self._data.copy()`, a fresh dict
holding the same object references. To express aliasing, tick objects live
in an explicit heap (`cells`, addressed by index = object identity) and the
dict maps keys to addresses.
-/

/-- The Python object heap: address `a` holds the mutable tick object
`cells.get? a`. -/
structure Heap where
  cells : List ShoonyaTickData
deriving DecidableEq, Repr

/-- Resource state at the reference level: the heap of tick objects and
`self._data` as a map from instrument key to object address. -/
structure State where
  heap : Heap
  table : List (String × Nat)
deriving DecidableEq, Repr

/-- `get_instrument_data(instrument_key)` (agent.py lines 171-173):
`self._data.get(instrument_key)` — returns the stored object reference. -/
def get_instrument_data (st : State) (key : String) : Option Nat :=
  dlookup st.table key

/-- `get_all_data()` (agent.py lines 175-177): `self._data.copy()` — a new
dict with the same key-to-object-reference entries (a shallow copy). -/
def get_all_data (st : State) : List (String × Nat) :=
  st.table

/-- In-place mutation of the tick object at address `a` (what a caller does
when it assigns a field of a tick it was handed, e.g.
`all_data["NSE|22"].last_traded_price = 200.0`). -/
def writeTick (h : Heap) (a : Nat) (v : ShoonyaTickData) : Heap :=
  { cells := h.cells.set a v }

/-- Dereference an object address against the current heap. -/
def readRef (st : State) (a : Nat) : Option ShoonyaTickData :=
  st.heap.cells.get? a

/-- The tick value a caller observes from `get_instrument_data`: the
referenced object's current contents. -/
def observe_get (st : State) (key : String) : Option ShoonyaTickData :=
  (get_instrument_data st key).bind (readRef st)

end MDRef

namespace App

/-!
Embedding of `src/mcp_server/app.py`: the `place_order` route's validation
and broker forwarding, the `token_required` decorator, and
`subscribe_market_data`'s per-token subscription tracking.
-/

/-- A Python value as it appears in a parsed JSON request body. Python's
`bool` is a subclass of `int`, so booleans are represented as `vint 1` and
`vint 0`; floats are modelled as rationals. -/
inductive PyVal
  | vint (n : Int)
  | vfloat (q : ℚ)
  | vstr (s : String)
  | vnone
deriving DecidableEq, Repr

/-- The order request body: each field of interest is present (`some`) or
absent from the JSON object (`none`). -/
structure OrderData where
  symbol : Option PyVal := none
  exchange : Option PyVal := none
  quantity : Option PyVal := none
  order_type : Option PyVal := none
  transaction_type : Option PyVal := none
  product_type : Option PyVal := none
  price : Option PyVal := none
deriving DecidableEq, Repr

/-- `data.get(field)` on the request body. -/
def OrderData.fieldGet (d : OrderData) : String → Option PyVal
  | "symbol" => d.symbol
  | "exchange" => d.exchange
  | "quantity" => d.quantity
  | "order_type" => d.order_type
  | "transaction_type" => d.transaction_type
  | "product_type" => d.product_type
  | "price" => d.price
  | _ => none

def MAX_ORDER_QUANTITY : Int := 100000

def MAX_ORDER_VALUE : ℚ := 5000000

def ALLOWED_EXCHANGES : List String := ["NSE", "NFO", "CDS", "BSE", "MCX"]

def ALLOWED_ORDER_TYPES : List String := ["MARKET", "LIMIT", "SL", "SL-M"]

def ALLOWED_TRANSACTION_TYPES : List String := ["BUY", "SELL"]

def ALLOWED_PRODUCT_TYPES : List String := ["CNC", "INTRADAY", "NORMAL", "MTF"]

def required_fields : List String :=
  ["symbol", "exchange", "quantity", "order_type", "transaction_type", "product_type"]

/-- The validation errors `place_order` can collect, one constructor per
`errors.append` site (app.py lines 127-154). -/
inductive VErr
  | missingParams (fs : List String)
  | invalidExchange
  | invalidOrderType
  | invalidTransactionType
  | invalidProductType
  | quantityNotPositiveInt
  | quantityExceedsMax (q : Int)
  | priceNotPositive
  | orderValueExceedsMax (v : ℚ)
deriving DecidableEq, Repr

/-- `[field for field in required_fields if field not in data]`
(app.py line 126). -/
def missingFields (d : OrderData) : List String :=
  required_fields.filter (fun f => (d.fieldGet f).isNone)

/-- Python `data.get(field) in ALLOWED_SET`: true exactly when the value is
present, is a string, and is a member of the set. -/
def inStrSet (v : Option PyVal) (s : List String) : Bool :=
  match v with
  | some (.vstr x) => s.contains x
  | _ => false

/-- `isinstance(quantity, int) and quantity > 0` on `data.get("quantity")`
(also the truthiness-guarded form `quantity and isinstance(quantity, int)
and quantity > 0` of line 151, which is equivalent). -/
def isPositiveInt (v : Option PyVal) : Bool :=
  match v with
  | some (.vint n) => 0 < n
  | _ => false

/-- `isinstance(price, (int, float))`: the numeric value, if any. -/
def toNum (v : Option PyVal) : Option ℚ :=
  match v with
  | some (.vint n) => some (n : ℚ)
  | some (.vfloat q) => some q
  | _ => none

/-- Quantity errors (app.py lines 139-144): non-positive-integer quantity is
an error; a valid quantity exceeding `MAX_ORDER_QUANTITY` is an error. -/
def quantityErrors (d : OrderData) : List VErr :=
  match d.quantity with
  | some (.vint n) =>
      if 0 < n then
        if MAX_ORDER_QUANTITY < n then [.quantityExceedsMax n] else []
      else [.quantityNotPositiveInt]
  | _ => [.quantityNotPositiveInt]

/-- `order_type in {"LIMIT", "SL"}` (app.py line 148). -/
def isPriceCarrying (ot : Option PyVal) : Bool :=
  ot == some (.vstr "LIMIT") || ot == some (.vstr "SL")

/-- Price and order-value errors (app.py lines 146-155): only LIMIT and SL
orders are checked; a non-positive or non-numeric price is an error;
otherwise, when the quantity is a valid positive integer, the order value
`quantity * price` must not exceed `MAX_ORDER_VALUE`. -/
def priceErrors (d : OrderData) : List VErr :=
  if isPriceCarrying d.order_type then
    match toNum d.price with
    | some p =>
        if 0 < p then
          match d.quantity with
          | some (.vint n) =>
              if 0 < n then
                if MAX_ORDER_VALUE < (n : ℚ) * p then [.orderValueExceedsMax ((n : ℚ) * p)]
                else []
              else []
          | _ => []
        else [.priceNotPositive]
    | none => [.priceNotPositive]
  else []

/-- The detailed validations of app.py lines 134-155, collected in source
order after the missing-fields short-circuit has passed. -/
def detailedErrors (d : OrderData) : List VErr :=
  (if inStrSet d.exchange ALLOWED_EXCHANGES then [] else [VErr.invalidExchange])
    ++ (if inStrSet d.order_type ALLOWED_ORDER_TYPES then [] else [VErr.invalidOrderType])
    ++ (if inStrSet d.transaction_type ALLOWED_TRANSACTION_TYPES then []
        else [VErr.invalidTransactionType])
    ++ (if inStrSet d.product_type ALLOWED_PRODUCT_TYPES then [] else [VErr.invalidProductType])
    ++ quantityErrors d
    ++ priceErrors d

/-- The complete validation-error list of one `place_order` call: missing
required fields short-circuit before the detailed checks. -/
def errorsOf (d : OrderData) : List VErr :=
  if missingFields d = [] then detailedErrors d
  else [.missingParams (missingFields d)]

/-- Mock of the broker's reply to `shoonya_place_order`, as far as the route
inspects it. -/
structure BrokerResp where
  success : Bool
  order_status : String
deriving DecidableEq, Repr

/-- Outcome of a `place_order` call: either a local HTTP-400 rejection with
`order_status = REJECTED_MCP` (the spec's `REJECTED_LOCAL`) carrying the
collected errors, or the mapped broker response. -/
inductive OrderOutcome
  | rejected_mcp (errs : List VErr)
  | broker_response (success : Bool) (order_status : String)
deriving DecidableEq, Repr

/-- `place_order` (app.py lines 116-172), for an authenticated request with
a JSON body: validate; on any error return the local rejection without
calling the broker; otherwise forward the request body unchanged to
`shoonya_place_order` and map its response. The second component is the
payload actually sent to the broker (`none` when the broker was never
invoked). -/
def place_order (d : OrderData) (resp : BrokerResp) : OrderOutcome × Option OrderData :=
  if missingFields d = [] then
    if detailedErrors d = [] then
      (.broker_response resp.success resp.order_status, some d)
    else (.rejected_mcp (detailedErrors d), none)
  else (.rejected_mcp [.missingParams (missingFields d)], none)

/-- An MCP session record (`active_sessions` values, app.py line 113). -/
structure Session where
  username : String
  client_id : String
  shoonya_session_id : String
deriving DecidableEq, Repr

/-- Python whitespace, for `str.split(None, ...)`. -/
def pyWhitespace (c : Char) : Bool :=
  c = ' ' || c = '\t' || c = '\n' || c = '\r' || c = '\x0b' || c = '\x0c'

/-- Python `s.split(None, 1)`: strip leading whitespace, cut at the first
whitespace run, strip the remainder's leading whitespace; empty pieces are
dropped. -/
def pySplitNone1 (s : String) : List String :=
  let l1 := s.toList.dropWhile pyWhitespace
  if l1 = [] then []
  else
    let first := l1.takeWhile (fun c => !pyWhitespace c)
    let rest := (l1.dropWhile (fun c => !pyWhitespace c)).dropWhile pyWhitespace
    if rest = [] then [String.mk first] else [String.mk first, String.mk rest]

/-- Token extraction of `token_required` (app.py lines 86-90): the header
must be non-empty and start with `Bearer `; the token is the second
whitespace-separated chunk, and an `IndexError` (no second chunk) leaves the
token absent. -/
def extractToken (authHeader : Option String) : Option String :=
  match authHeader with
  | none => none
  | some hd =>
      if hd ≠ "" ∧ pyStartswith hd "Bearer " then (pySplitNone1 hd).get? 1
      else none

/-- Result of a guarded route: an HTTP-401 rejection from the decorator, or
the wrapped handler's result. -/
inductive RouteResult (α : Type)
  | http401 (message : String)
  | handled (value : α)
deriving DecidableEq, Repr

/-- `token_required` (app.py lines 83-97): extract the token from the
`Authorization` header; a missing/empty token or a token not in
`active_sessions` yields a 401 and the wrapped handler never runs; otherwise
the handler runs with the token and its session. -/
def token_required {α : Type} (sessions : List (String × Session))
    (authHeader : Option String) (handler : String → Session → α) : RouteResult α :=
  match extractToken authHeader with
  | none => .http401 "Authentication token is missing or invalid format!"
  | some tok =>
      if tok = "" then .http401 "Authentication token is missing or invalid format!"
      else
        match dlookup sessions tok with
        | none => .http401 "Invalid or expired MCP session token!"
        | some sess => .handled (handler tok sess)

/-- The decorator's rejection condition: the presented token is absent
(header missing, malformed, or no second chunk), empty, or not a key of
`active_sessions`. -/
def tokenUnauthenticated (sessions : List (String × Session)) (authHeader : Option String) :
    Bool :=
  match extractToken authHeader with
  | none => true
  | some t => t = "" || (dlookup sessions t).isNone

/-- `f"{inst['exchange']}_{inst['token']}"` (app.py line 67): the key the
mock subscribe builds for each instrument. -/
def instrumentKey (exch tok : String) : String := exch ++ "_" ++ tok

/-- `client_subscriptions[token].extend(key for key in keys if key not in
client_subscriptions[token])` (app.py line 193): `extend` consumes the
generator lazily, so each membership test sees the keys already appended by
the same call. -/
def extendIfAbsent (old : List String) (keys : List String) : List String :=
  keys.foldl (fun acc k => if k ∈ acc then acc else acc ++ [k]) old

/-- `newly_tracked` (app.py line 192): the count of subscribed keys absent
from the caller's list as it stood before the extension. -/
def newlyTracked (old : List String) (keys : List String) : Nat :=
  (keys.filter (fun k => !old.contains k)).length

/-- Successful-branch state update of `subscribe_market_data` (app.py lines
189-194): `setdefault` the caller's list, count the newly tracked keys
against it, then extend it with the keys not already present. Returns the
updated `client_subscriptions` map, the `newly_tracked` count and the
reported total. -/
def subscribe_market_data (subs : List (String × List String)) (tok : String)
    (subscribed_keys : List String) : List (String × List String) × Nat × Nat :=
  let old := (dlookup subs tok).getD []
  let newList := extendIfAbsent old subscribed_keys
  (dinsert subs tok newList, newlyTracked old subscribed_keys, newList.length)

end App

namespace Agent

/-!
Embedding of `ShoonyaMCPAgent.connect_shoonya_broker` (agent.py lines
275-386). The broker login call and the WebSocket startup are external
effects; each call's outcome is passed in as a parameter. The WebSocket open
callback, which runs on the feed thread, is modelled as having fired (or
not) by the time the flow reads `self.websocket_connected` after the
two-second wait.
-/

/-- The agent's authenticated-session fields and WebSocket flag. -/
structure AgentState where
  shoonya_user_token : Option String := none
  shoonya_user_id : Option String := none
  shoonya_username : Option String := none
  websocket_connected : Bool := false
deriving DecidableEq, Repr

/-- The parsed Shoonya login response: whether `stat == 'Ok'`, plus the
fields the flow reads via `.get` (each possibly absent). -/
structure LoginResponse where
  stat_ok : Bool
  susertoken : Option String := none
  uid : Option String := none
  uname : Option String := none
deriving DecidableEq, Repr

/-- Outcome of the `self.shoonya_api.login(...)` call: an exception, or a
returned response. -/
inductive LoginOutcome
  | raises
  | returns (r : LoginResponse)
deriving DecidableEq, Repr

/-- Outcome of the WebSocket startup: the call raised; the open callback
fired (setting `websocket_connected` true) before the post-wait check; or
no callback fired, leaving the flag at its prior value. -/
inductive WsStart
  | raises
  | opened
  | silent
deriving DecidableEq, Repr

/-- The tool result's status field. -/
inductive ConnectStatus
  | success
  | error
deriving DecidableEq, Repr

/-- `connect_shoonya_broker` (agent.py lines 280-386): return early with
success when already connected with an active WebSocket; on login exception
reset all session fields and the flag and report an error; on `stat != 'Ok'`
likewise; on a successful login populate the session fields from the
response, start the WebSocket, and if it raised or the flag is not set after
the wait, clear the session fields (and on the exception path the flag) and
report an error; otherwise report success. -/
def connect_shoonya_broker (st : AgentState) (login : LoginOutcome) (ws : WsStart) :
    AgentState × ConnectStatus :=
  if st.shoonya_user_token.isSome ∧ st.websocket_connected then (st, .success)
  else
    match login with
    | .raises =>
        ({ st with shoonya_user_token := none, shoonya_user_id := none,
                   shoonya_username := none, websocket_connected := false }, .error)
    | .returns r =>
        if r.stat_ok then
          let st1 := { st with shoonya_user_token := r.susertoken,
                               shoonya_user_id := r.uid, shoonya_username := r.uname }
          match ws with
          | .raises =>
              ({ st1 with shoonya_user_token := none, shoonya_user_id := none,
                          shoonya_username := none, websocket_connected := false }, .error)
          | .opened => ({ st1 with websocket_connected := true }, .success)
          | .silent =>
              if st1.websocket_connected then (st1, .success)
              else
                ({ st1 with shoonya_user_token := none, shoonya_user_id := none,
                            shoonya_username := none }, .error)
        else
          ({ st with shoonya_user_token := none, shoonya_user_id := none,
                     shoonya_username := none, websocket_connected := false }, .error)

end Agent

/-!
Concrete inputs used by counterexamples and witnesses.
-/

/-- A touchline tick carrying a last price and a volume. -/
def tickFirst : RawTick :=
  { t := some "tf", e := some "NSE", tk := some "22", lp := some 100, v := some 500 }

/-- A later touchline tick for the same instrument carrying only a last
price; its `v` field is absent. -/
def tickSecond : RawTick :=
  { t := some "tf", e := some "NSE", tk := some "22", lp := some (203 / 2 : ℚ) }

/-- A subscription acknowledgement: kind `tk`, not a data-carrying tick. -/
def ackTick : RawTick :=
  { t := some "tk", e := some "NSE", tk := some "22" }

/-- The tick object stored in the cache in the aliasing scenario. -/
def tickStored : ShoonyaTickData :=
  { exchange := some "NSE", token := some "22", last_traded_price := some 100 }

/-- The same object after a caller assigns `last_traded_price = 200.0`
through the reference it was handed. -/
def tickMutated : ShoonyaTickData :=
  { tickStored with last_traded_price := some 200 }

/-- A cache holding one tick object for key `NSE|22`, at heap address 0. -/
def refCacheEx : MDRef.State :=
  { heap := { cells := [tickStored] }, table := [("NSE|22", 0)] }

/-- A fully valid LIMIT order with quantity 4000 at price 1250
(notional exactly 5000000). -/
def limitOrder4000 : App.OrderData :=
  { symbol := some (.vstr "SBIN-EQ"), exchange := some (.vstr "NSE")
    quantity := some (.vint 4000), order_type := some (.vstr "LIMIT")
    transaction_type := some (.vstr "BUY"), product_type := some (.vstr "CNC")
    price := some (.vfloat 1250) }

/-- The same LIMIT order with quantity 4001 (notional 5001250). -/
def limitOrder4001 : App.OrderData :=
  { limitOrder4000 with quantity := some (.vint 4001) }

/-- An order request whose quantity is the non-positive integer 0. -/
def zeroQtyOrder : App.OrderData :=
  { limitOrder4000 with quantity := some (.vint 0) }

/-- A valid MARKET order at the quantity ceiling: quantity exactly
100000. -/
def marketOrder100000 : App.OrderData :=
  { limitOrder4000 with
      order_type := some (.vstr "MARKET"), quantity := some (.vint 100000),
      price := none }

/-- The same MARKET order with quantity 100001, one above the ceiling. -/
def marketOrder100001 : App.OrderData :=
  { marketOrder100000 with quantity := some (.vint 100001) }

/-- A MARKET order with a huge quantity-times-price product, to exercise
the notional-check exemption. -/
def marketOrderBig : App.OrderData :=
  { limitOrder4000 with
      order_type := some (.vstr "MARKET"), quantity := some (.vint 100000),
      price := some (.vfloat 1250) }

/-- A successful broker reply used in witnesses. -/
def respOk : App.BrokerResp := { success := true, order_status := "SENT_TO_BROKER" }

/-- A session record used in witnesses. -/
def sessionEx : App.Session :=
  { username := "alice", client_id := "C1", shoonya_session_id := "S1" }

/-!
Helper lemmas.
-/

theorem dlookup_dinsert_self {α : Type} (m : List (String × α)) (k : String) (v : α) :
    dlookup (dinsert m k v) k = some v := by
  induction m with
  | nil => simp [dlookup, dinsert]
  | cons p m ih =>
      by_cases h : p.1 == k
      · simp [dlookup, dinsert, h]
      · simp [dlookup, dinsert, h, ih]

theorem mem_if_nil_singleton (a b : App.VErr) (c : Bool) :
    (a ∈ (if c then ([] : List App.VErr) else [b])) ↔ (c = false ∧ a = b) := by
  cases c <;> simp

theorem priceErrors_shape (d : App.OrderData) :
    App.priceErrors d = [] ∨ App.priceErrors d = [.priceNotPositive]
      ∨ ∃ v, App.priceErrors d = [.orderValueExceedsMax v] := by
  unfold App.priceErrors
  by_cases hc : App.isPriceCarrying d.order_type
  · rw [if_pos hc]
    cases htn : App.toNum d.price with
    | none => simp
    | some p =>
        dsimp only
        by_cases hp : 0 < p
        · rw [if_pos hp]
          cases hq : d.quantity with
          | none => simp
          | some v =>
              cases v with
              | vint n =>
                  dsimp only
                  by_cases hn : 0 < n
                  · rw [if_pos hn]
                    by_cases hv : App.MAX_ORDER_VALUE < (n : ℚ) * p
                    · rw [if_pos hv]
                      right; right; exact ⟨_, rfl⟩
                    · rw [if_neg hv]; simp
                  · rw [if_neg hn]; simp
              | vfloat q => simp
              | vstr s => simp
              | vnone => simp
        · rw [if_neg hp]; simp
  · rw [if_neg hc]; simp

theorem quantityErrors_shape (d : App.OrderData) :
    App.quantityErrors d = [] ∨ App.quantityErrors d = [.quantityNotPositiveInt]
      ∨ ∃ n, App.quantityErrors d = [.quantityExceedsMax n] := by
  unfold App.quantityErrors
  cases hq : d.quantity with
  | none => simp
  | some v =>
      cases v with
      | vint n =>
          dsimp only
          by_cases hn : 0 < n
          · rw [if_pos hn]
            by_cases hx : App.MAX_ORDER_QUANTITY < n
            · rw [if_pos hx]
              right; right; exact ⟨_, rfl⟩
            · rw [if_neg hx]; simp
          · rw [if_neg hn]; simp
      | vfloat q => simp
      | vstr s => simp
      | vnone => simp

theorem quantityExceedsMax_not_mem_priceErrors (d : App.OrderData) (m : Int) :
    App.VErr.quantityExceedsMax m ∉ App.priceErrors d := by
  rcases priceErrors_shape d with h | h | ⟨v, h⟩ <;> simp [h]

theorem orderValue_not_mem_quantityErrors (d : App.OrderData) (v : ℚ) :
    App.VErr.orderValueExceedsMax v ∉ App.quantityErrors d := by
  rcases quantityErrors_shape d with h | h | ⟨n, h⟩ <;> simp [h]

/-- Membership in the collected detailed validation errors, split by the
check that produced the error. -/
theorem mem_detailedErrors_iff (d : App.OrderData) (a : App.VErr) :
    a ∈ App.detailedErrors d ↔
      (App.inStrSet d.exchange App.ALLOWED_EXCHANGES = false ∧ a = .invalidExchange)
      ∨ (App.inStrSet d.order_type App.ALLOWED_ORDER_TYPES = false ∧ a = .invalidOrderType)
      ∨ (App.inStrSet d.transaction_type App.ALLOWED_TRANSACTION_TYPES = false
          ∧ a = .invalidTransactionType)
      ∨ (App.inStrSet d.product_type App.ALLOWED_PRODUCT_TYPES = false
          ∧ a = .invalidProductType)
      ∨ a ∈ App.quantityErrors d
      ∨ a ∈ App.priceErrors d := by
  unfold App.detailedErrors
  simp only [List.mem_append, mem_if_nil_singleton]
  tauto

/-!
Claim theorems.
-/

/-- C5: a raw tick payload whose declared kind is not `tf` or `df` leaves
the cache completely unchanged and emits no notification. -/
theorem update_tick_ignores_non_data_kinds (st : MD.State) (key : String) (r : RawTick)
    (now : ℚ) (h : ¬(r.t = some "tf" ∨ r.t = some "df")) :
    MD.update_tick st key r now = st := by
  simp [MD.update_tick, h]

/-- Witness for C5: ingesting a subscription-acknowledgement tick (kind
`tk`) into the empty cache changes nothing. -/
theorem update_tick_ignores_non_data_kinds_witness :
    ¬(ackTick.t = some "tf" ∨ ackTick.t = some "df")
      ∧ MD.update_tick MD.State.init "NSE|22" ackTick 1 = MD.State.init :=
  ⟨by decide, update_tick_ignores_non_data_kinds MD.State.init "NSE|22" ackTick 1 (by decide)⟩

/-- C1 counterexample: the claim that fields present in the earlier Tick but
absent from the later payload keep their earlier value is false. After
ingesting `tickFirst` (volume 500) the stored volume is 500, but after the
qualifying update `tickSecond` — whose payload has no volume field — the
stored volume is absent, not 500. -/
theorem update_tick_drops_fields_absent_from_later_payload :
    ((dlookup (MD.update_tick MD.State.init "NSE|22" tickFirst 1).data "NSE|22").map
        ShoonyaTickData.volume = some (some 500))
    ∧ ((dlookup (MD.update_tick (MD.update_tick MD.State.init "NSE|22" tickFirst 1)
          "NSE|22" tickSecond 2).data "NSE|22").map ShoonyaTickData.volume = some none) :=
  ⟨rfl, rfl⟩

/-- C1 (amended): on a qualifying (touchline or depth) update, `update_tick`
stores the parse of the new raw payload alone — whole-object replacement,
with `mcp_received_timestamp` stamped with the current time — and emits one
notification carrying that replacement tick; fields absent from the later
payload are absent in the stored Tick regardless of what the earlier Tick
held. -/
theorem update_tick_replaces_whole_tick (st : MD.State) (key : String) (r : RawTick)
    (now : ℚ) (hq : r.t = some "tf" ∨ r.t = some "df") :
    (MD.update_tick st key r now).data
        = dinsert st.data key
            { ShoonyaTickData.parse_obj r with mcp_received_timestamp := some now }
      ∧ dlookup (MD.update_tick st key r now).data key
        = some { ShoonyaTickData.parse_obj r with mcp_received_timestamp := some now }
      ∧ (MD.update_tick st key r now).notes
        = st.notes ++
            [(key, { ShoonyaTickData.parse_obj r with mcp_received_timestamp := some now })] := by
  unfold MD.update_tick
  rw [if_pos hq]
  exact ⟨rfl, dlookup_dinsert_self st.data key _, rfl⟩

/-- Witness for the amended C1: the replacement equations hold at the
concrete touchline tick `tickSecond` applied to a cache that already holds
`tickFirst`'s data. -/
theorem update_tick_replaces_whole_tick_witness :
    (tickSecond.t = some "tf" ∨ tickSecond.t = some "df")
      ∧ ((MD.update_tick (MD.update_tick MD.State.init "NSE|22" tickFirst 1)
            "NSE|22" tickSecond 2).data
          = dinsert (MD.update_tick MD.State.init "NSE|22" tickFirst 1).data "NSE|22"
              { ShoonyaTickData.parse_obj tickSecond with mcp_received_timestamp := some 2 }
        ∧ dlookup (MD.update_tick (MD.update_tick MD.State.init "NSE|22" tickFirst 1)
            "NSE|22" tickSecond 2).data "NSE|22"
          = some { ShoonyaTickData.parse_obj tickSecond with mcp_received_timestamp := some 2 }
        ∧ (MD.update_tick (MD.update_tick MD.State.init "NSE|22" tickFirst 1)
            "NSE|22" tickSecond 2).notes
          = (MD.update_tick MD.State.init "NSE|22" tickFirst 1).notes ++
              [("NSE|22",
                { ShoonyaTickData.parse_obj tickSecond with
                    mcp_received_timestamp := some 2 })]) :=
  ⟨Or.inl rfl,
   update_tick_replaces_whole_tick (MD.update_tick MD.State.init "NSE|22" tickFirst 1)
     "NSE|22" tickSecond 2 (Or.inl rfl)⟩

/-- C8: `initialize_instrument` is idempotent — the second call on the same
key is a strict no-op (same data, same notification log) — and a first call
on an absent key inserts exactly the empty tick parsed from the key and
appends exactly one notification carrying it. -/
theorem initialize_instrument_idempotent (st : MD.State) (key : String) :
    MD.initialize_instrument (MD.initialize_instrument st key) key
        = MD.initialize_instrument st key
      ∧ (dlookup st.data key = none →
          (MD.initialize_instrument st key).data = dinsert st.data key (MD.emptyTickFor key)
          ∧ (MD.initialize_instrument st key).notes
            = st.notes ++ [(key, MD.emptyTickFor key)]) := by
  unfold MD.initialize_instrument
  by_cases h : (dlookup st.data key).isSome
  · refine ⟨by simp [h], ?_⟩
    intro habs
    rw [habs] at h
    simp at h
  · have h2 : dlookup (dinsert st.data key (MD.emptyTickFor key)) key
        = some (MD.emptyTickFor key) := dlookup_dinsert_self st.data key _
    refine ⟨?_, fun _ => ⟨by simp [h], by simp [h]⟩⟩
    simp only [if_neg h]
    rw [if_pos]
    simp [h2]

/-- Witness for C8: initializing `NSE|22` in the empty cache inserts the
empty tick with exchange `NSE` and token `22` and notifies once; the second
call changes nothing. -/
theorem initialize_instrument_idempotent_witness :
    dlookup MD.State.init.data "NSE|22" = none
      ∧ MD.initialize_instrument (MD.initialize_instrument MD.State.init "NSE|22") "NSE|22"
        = MD.initialize_instrument MD.State.init "NSE|22"
      ∧ (MD.initialize_instrument MD.State.init "NSE|22").data
        = dinsert MD.State.init.data "NSE|22" (MD.emptyTickFor "NSE|22")
      ∧ (MD.initialize_instrument MD.State.init "NSE|22").notes
        = MD.State.init.notes ++ [("NSE|22", MD.emptyTickFor "NSE|22")]
      ∧ MD.emptyTickFor "NSE|22" = { exchange := some "NSE", token := some "22" } :=
  ⟨rfl, (initialize_instrument_idempotent MD.State.init "NSE|22").1,
   ((initialize_instrument_idempotent MD.State.init "NSE|22").2 rfl).1,
   ((initialize_instrument_idempotent MD.State.init "NSE|22").2 rfl).2, rfl⟩

/-- C2 (code bug): the cache's read operations hand out live references.
The key looked up in `get_all_data`'s shallow copy resolves to the very
object reference stored in the internal map (the same one
`get_instrument_data` returns); the caller initially observes the stored
tick with last price 100, and after mutating that shared object through the
returned reference (setting last price 200), a subsequent
`get_instrument_data` observes 200 — contradicting the claim and the repo's
own test (test_agent.py lines 335-337), which requires the internal tick to
stay at 100. -/
theorem get_all_data_returns_shared_references :
    dlookup (MDRef.get_all_data refCacheEx) "NSE|22"
        = MDRef.get_instrument_data refCacheEx "NSE|22"
      ∧ dlookup (MDRef.get_all_data refCacheEx) "NSE|22" = some 0
      ∧ MDRef.observe_get refCacheEx "NSE|22" = some tickStored
      ∧ MDRef.observe_get
          { refCacheEx with heap := MDRef.writeTick refCacheEx.heap 0 tickMutated }
          "NSE|22" = some tickMutated
      ∧ tickMutated.last_traded_price = some 200
      ∧ tickStored.last_traded_price = some 100 :=
  ⟨rfl, rfl, rfl, rfl, rfl, rfl⟩

/-- C3: an order whose quantity is present but is not a positive integer is
rejected locally (`REJECTED_MCP`, the spec's `REJECTED_LOCAL`) and the
broker's place-order is never called; more generally, any request whose
validation error list is non-empty is rejected locally with the broker never
called. -/
theorem place_order_rejects_invalid_quantity_locally (d : App.OrderData)
    (resp : App.BrokerResp) :
    (d.quantity.isSome → App.isPositiveInt d.quantity = false →
        App.place_order d resp = (.rejected_mcp (App.errorsOf d), none))
      ∧ (App.errorsOf d ≠ [] →
          App.place_order d resp = (.rejected_mcp (App.errorsOf d), none)) := by
  have hgen : App.errorsOf d ≠ [] →
      App.place_order d resp = (.rejected_mcp (App.errorsOf d), none) := by
    intro h
    unfold App.errorsOf at h ⊢
    by_cases hm : App.missingFields d = []
    · rw [if_pos hm] at h
      simp [App.place_order, hm, h]
    · simp [App.place_order, hm]
  refine ⟨?_, hgen⟩
  intro hsome hbad
  apply hgen
  unfold App.errorsOf
  by_cases hm : App.missingFields d = []
  · rw [if_pos hm]
    have hq : App.quantityErrors d = [.quantityNotPositiveInt] := by
      unfold App.isPositiveInt at hbad
      unfold App.quantityErrors
      cases hv : d.quantity with
      | none => simp [hv] at hsome
      | some v =>
          rw [hv] at hbad
          cases v with
          | vint n =>
              simp only [decide_eq_false_iff_not] at hbad
              simp [hbad]
          | vfloat q => simp
          | vstr s => simp
          | vnone => simp
    unfold App.detailedErrors
    rw [hq]
    simp
  · rw [if_neg hm]
    simp

/-- Witness for C3: an order with quantity 0 is rejected locally and the
broker payload is `none` (the broker is never invoked). -/
theorem place_order_rejects_invalid_quantity_locally_witness :
    zeroQtyOrder.quantity.isSome
      ∧ App.isPositiveInt zeroQtyOrder.quantity = false
      ∧ App.place_order zeroQtyOrder { success := true, order_status := "SENT_TO_BROKER" }
        = (.rejected_mcp (App.errorsOf zeroQtyOrder), none) :=
  ⟨rfl, rfl,
   (place_order_rejects_invalid_quantity_locally zeroQtyOrder
      { success := true, order_status := "SENT_TO_BROKER" }).1 rfl rfl⟩

/-- C4: whenever the presented token is absent, empty, or not a key of the
session store, a `token_required`-guarded operation answers with a 401
rejection, and the wrapped handler body never runs — the result is the same
401 message no matter which handler was wrapped. -/
theorem token_required_rejects_unauthenticated {α : Type}
    (sessions : List (String × App.Session)) (hdr : Option String)
    (h : App.tokenUnauthenticated sessions hdr = true) :
    ∃ m, ∀ (f : String → App.Session → α),
      App.token_required sessions hdr f = .http401 m := by
  unfold App.tokenUnauthenticated at h
  unfold App.token_required
  cases hx : App.extractToken hdr with
  | none => exact ⟨_, fun f => rfl⟩
  | some t =>
      rw [hx] at h
      simp only at h ⊢
      by_cases ht : t = ""
      · exact ⟨_, fun f => by rw [if_pos ht]⟩
      · have hn : (dlookup sessions t).isNone := by
          simpa [ht] using h
        refine ⟨"Invalid or expired MCP session token!", fun f => ?_⟩
        rw [if_neg ht]
        cases hl : dlookup sessions t with
        | none => rfl
        | some s => rw [hl] at hn; simp at hn

/-- Witness for C4: with a session store holding only the token `good`, a
request presenting `Bearer bad` is answered with a 401; two different
handlers produce the identical result, so neither handler body ran. -/
theorem token_required_rejects_unauthenticated_witness :
    App.tokenUnauthenticated [("good", sessionEx)] (some "Bearer bad") = true
      ∧ App.token_required [("good", sessionEx)] (some "Bearer bad") (fun _ _ => (0 : Nat))
        = App.token_required [("good", sessionEx)] (some "Bearer bad") (fun _ _ => 1)
      ∧ App.token_required [("good", sessionEx)] (some "Bearer bad") (fun _ _ => (0 : Nat))
        = .http401 "Invalid or expired MCP session token!" := by
  obtain ⟨m, hm⟩ := token_required_rejects_unauthenticated (α := Nat)
    [("good", sessionEx)] (some "Bearer bad") rfl
  exact ⟨rfl, by rw [hm, hm], rfl⟩

/-- C6: for an order whose quantity is a positive integer `n`, the
quantity-ceiling check yields the exceeds-maximum error exactly when
`100000 < n` (the 100000 boundary itself passes) and yields nothing else;
and a request passing all validation is forwarded to the broker with its
payload unchanged — the quantity is never clamped. -/
theorem quantity_ceiling_inclusive (d : App.OrderData) (n : Int) (resp : App.BrokerResp)
    (hq : d.quantity = some (.vint n)) (hpos : 0 < n) :
    (App.quantityErrors d
        = if App.MAX_ORDER_QUANTITY < n then [.quantityExceedsMax n] else [])
      ∧ (App.VErr.quantityExceedsMax n ∈ App.detailedErrors d ↔ (100000 : Int) < n)
      ∧ (App.missingFields d = [] → App.detailedErrors d = [] →
          App.place_order d resp
            = (.broker_response resp.success resp.order_status, some d)) := by
  have hqe : App.quantityErrors d
      = if App.MAX_ORDER_QUANTITY < n then [.quantityExceedsMax n] else [] := by
    unfold App.quantityErrors
    rw [hq]
    dsimp only
    rw [if_pos hpos]
  refine ⟨hqe, ?_, ?_⟩
  · rw [mem_detailedErrors_iff]
    simp only [hqe, quantityExceedsMax_not_mem_priceErrors]
    by_cases hmx : App.MAX_ORDER_QUANTITY < n
    · simp [hmx]
      simpa [App.MAX_ORDER_QUANTITY] using hmx
    · simp [hmx]
      simpa [App.MAX_ORDER_QUANTITY] using hmx
  · intro h1 h2
    simp [App.place_order, h1, h2]

/-- Witness for C6: quantity 100000 produces no quantity-ceiling error,
quantity 100001 produces one, and the 100000-quantity order is forwarded to
the broker unchanged. -/
theorem quantity_ceiling_inclusive_witness :
    ((App.VErr.quantityExceedsMax 100000 ∈ App.detailedErrors marketOrder100000
        ↔ (100000 : Int) < 100000)
      ∧ (App.VErr.quantityExceedsMax 100001 ∈ App.detailedErrors marketOrder100001
        ↔ (100000 : Int) < 100001))
      ∧ App.place_order marketOrder100000 respOk
        = (.broker_response respOk.success respOk.order_status, some marketOrder100000) :=
  ⟨⟨(quantity_ceiling_inclusive marketOrder100000 100000 respOk rfl (by decide)).2.1,
    (quantity_ceiling_inclusive marketOrder100001 100001 respOk rfl (by decide)).2.1⟩,
   (quantity_ceiling_inclusive marketOrder100000 100000 respOk rfl (by decide)).2.2
     rfl (by decide)⟩

/-- C7: for a price-carrying order (order type LIMIT or SL) with a valid
positive integer quantity `n` and a valid positive price `p`, the notional
check yields the order-value error exactly when `n * p` exceeds 5000000
(the boundary itself passes); and MARKET and SL-M orders are never subject
to the notional check — no order-value error can arise for them. -/
theorem notional_ceiling_limit_only (d : App.OrderData) :
    (∀ (n : Int) (p : ℚ), App.isPriceCarrying d.order_type = true →
        d.quantity = some (.vint n) → 0 < n →
        App.toNum d.price = some p → 0 < p →
        (App.priceErrors d
            = if (5000000 : ℚ) < (n : ℚ) * p
              then [.orderValueExceedsMax ((n : ℚ) * p)] else [])
        ∧ ((∃ v, App.VErr.orderValueExceedsMax v ∈ App.detailedErrors d)
            ↔ (5000000 : ℚ) < (n : ℚ) * p))
      ∧ ((d.order_type = some (.vstr "MARKET") ∨ d.order_type = some (.vstr "SL-M")) →
          ∀ v, App.VErr.orderValueExceedsMax v ∉ App.detailedErrors d) := by
  constructor
  · intro n p hc hq hn hp hpp
    have hpe : App.priceErrors d
        = if (5000000 : ℚ) < (n : ℚ) * p
          then [.orderValueExceedsMax ((n : ℚ) * p)] else [] := by
      unfold App.priceErrors
      rw [if_pos hc, hp]
      dsimp only
      rw [if_pos hpp, hq]
      dsimp only
      rw [if_pos hn]
      rfl
    refine ⟨hpe, ?_⟩
    constructor
    · rintro ⟨v, hv⟩
      rw [mem_detailedErrors_iff] at hv
      simp only [hpe, orderValue_not_mem_quantityErrors] at hv
      rcases hv with ⟨_, h⟩ | ⟨_, h⟩ | ⟨_, h⟩ | ⟨_, h⟩ | h | h
      · exact absurd h (by simp)
      · exact absurd h (by simp)
      · exact absurd h (by simp)
      · exact absurd h (by simp)
      · exact absurd h (by simp)
      · by_cases hmx : (5000000 : ℚ) < (n : ℚ) * p
        · exact hmx
        · rw [if_neg hmx] at h
          simp at h
    · intro hmx
      refine ⟨(n : ℚ) * p, ?_⟩
      rw [mem_detailedErrors_iff]
      refine Or.inr (Or.inr (Or.inr (Or.inr (Or.inr ?_))))
      rw [hpe, if_pos hmx]
      simp
  · intro hot v
    have hc : App.isPriceCarrying d.order_type = false := by
      rcases hot with h | h <;> simp [App.isPriceCarrying, h]
    have hpe : App.priceErrors d = [] := by
      unfold App.priceErrors
      rw [hc]
      simp
    rw [mem_detailedErrors_iff]
    simp [hpe, orderValue_not_mem_quantityErrors]

/-- Witness for C7: a LIMIT order of 4000 at price 1250 (notional exactly
5000000) draws no order-value error; 4001 at the same price draws one; a
MARKET order with the same large quantity-times-price product draws none. -/
theorem notional_ceiling_limit_only_witness :
    App.priceErrors limitOrder4000 = []
      ∧ App.priceErrors limitOrder4001
        = [App.VErr.orderValueExceedsMax (((4001 : Int) : ℚ) * 1250)]
      ∧ App.VErr.orderValueExceedsMax (((4001 : Int) : ℚ) * 1250)
          ∉ App.detailedErrors marketOrderBig := by
  have h1 := ((notional_ceiling_limit_only limitOrder4000).1 4000 1250 rfl rfl (by decide)
    rfl (by norm_num)).1
  have h2 := ((notional_ceiling_limit_only limitOrder4001).1 4001 1250 rfl rfl (by decide)
    rfl (by norm_num)).1
  have h3 := (notional_ceiling_limit_only marketOrderBig).2 (Or.inl rfl)
    (((4001 : Int) : ℚ) * 1250)
  refine ⟨?_, ?_, h3⟩
  · rw [h1, if_neg (by norm_num)]
  · rw [h2, if_pos (by norm_num)]

/-- C9: subscribing never duplicates a key in the caller's tracked list —
a no-duplicates list stays duplicate-free after any subscribe call — and a
call whose keys are all already tracked leaves the list unchanged and
reports zero newly-tracked instruments. -/
theorem subscribe_market_data_no_duplicates (subs : List (String × List String))
    (tok : String) (keys : List String)
    (h : ∀ l, dlookup subs tok = some l → l.Nodup) :
    (∀ l, dlookup (App.subscribe_market_data subs tok keys).1 tok = some l → l.Nodup)
      ∧ ((∀ k ∈ keys, k ∈ (dlookup subs tok).getD []) →
          dlookup (App.subscribe_market_data subs tok keys).1 tok
              = some ((dlookup subs tok).getD [])
          ∧ (App.subscribe_market_data subs tok keys).2.1 = 0) := by
  have hext_nodup : ∀ (ks acc : List String), acc.Nodup →
      (App.extendIfAbsent acc ks).Nodup := by
    intro ks
    induction ks with
    | nil => intro acc hacc; exact hacc
    | cons k ks ih =>
        intro acc hacc
        unfold App.extendIfAbsent at ih ⊢
        simp only [List.foldl_cons]
        by_cases hk : k ∈ acc
        · rw [if_pos hk]
          exact ih acc hacc
        · rw [if_neg hk]
          refine ih _ ?_
          simp [List.nodup_append, hacc, hk]
  have hext_noop : ∀ (ks acc : List String), (∀ k ∈ ks, k ∈ acc) →
      App.extendIfAbsent acc ks = acc := by
    intro ks
    induction ks with
    | nil => intro acc _; rfl
    | cons k ks ih =>
        intro acc hin
        unfold App.extendIfAbsent at ih ⊢
        simp only [List.foldl_cons]
        rw [if_pos (hin k (by simp))]
        exact ih acc (fun x hx => hin x (by simp [hx]))
  have hold : ((dlookup subs tok).getD []).Nodup := by
    cases hl : dlookup subs tok with
    | none => simp
    | some l => simpa using h l hl
  constructor
  · intro l hl
    unfold App.subscribe_market_data at hl
    rw [dlookup_dinsert_self] at hl
    cases hl
    exact hext_nodup keys _ hold
  · intro hin
    unfold App.subscribe_market_data
    refine ⟨?_, ?_⟩
    · rw [dlookup_dinsert_self, hext_noop keys _ hin]
    · unfold App.newlyTracked
      simpa using hin

/-- Witness for C9: a caller already tracking `NSE_22` subscribes to
`NSE_22` again — the tracked list stays duplicate-free and unchanged, and
zero newly-tracked instruments are reported. -/
theorem subscribe_market_data_no_duplicates_witness :
    dlookup (App.subscribe_market_data [("tok1", ["NSE_22"])] "tok1" ["NSE_22"]).1 "tok1"
        = some ((dlookup [("tok1", ["NSE_22"])] "tok1").getD [])
      ∧ (App.subscribe_market_data [("tok1", ["NSE_22"])] "tok1" ["NSE_22"]).2.1 = 0
      ∧ (["NSE_22"] : List String).Nodup := by
  have hth := subscribe_market_data_no_duplicates [("tok1", ["NSE_22"])] "tok1" ["NSE_22"]
    (by intro l hl; cases hl; simp)
  have hmem : ∀ k ∈ ["NSE_22"], k ∈ (dlookup [("tok1", ["NSE_22"])] "tok1").getD [] := by
    simp [dlookup]
  exact ⟨(hth.2 hmem).1, (hth.2 hmem).2, hth.1 ["NSE_22"] ((hth.2 hmem).1)⟩

/-- C10: `connect_shoonya_broker` is atomic with respect to session state —
whenever it reports an error (login exception, login failure, WebSocket
startup exception, or WebSocket failure to open after a successful login),
the agent's token, user id and username are `None` and
`websocket_connected` is `False` afterwards. -/
theorem connect_error_clears_session (st : Agent.AgentState) (lo : Agent.LoginOutcome)
    (ws : Agent.WsStart)
    (h : (Agent.connect_shoonya_broker st lo ws).2 = .error) :
    (Agent.connect_shoonya_broker st lo ws).1.shoonya_user_token = none
      ∧ (Agent.connect_shoonya_broker st lo ws).1.shoonya_user_id = none
      ∧ (Agent.connect_shoonya_broker st lo ws).1.shoonya_username = none
      ∧ (Agent.connect_shoonya_broker st lo ws).1.websocket_connected = false := by
  unfold Agent.connect_shoonya_broker at h ⊢
  by_cases h0 : st.shoonya_user_token.isSome ∧ st.websocket_connected
  · rw [if_pos h0] at h
    simp at h
  · rw [if_neg h0] at h ⊢
    cases lo with
    | raises => simp
    | returns r =>
        dsimp only at h ⊢
        by_cases hr : r.stat_ok
        · rw [if_pos hr] at h ⊢
          cases ws with
          | raises => simp
          | opened => simp at h
          | silent =>
              dsimp only at h ⊢
              by_cases hw : st.websocket_connected
              · rw [if_pos hw] at h
                simp at h
              · rw [if_neg hw] at h ⊢
                simp [hw]
        · rw [if_neg hr] at h ⊢
          simp

/-- Witness for C10: a failed login (`stat != 'Ok'`) from the disconnected
initial state reports an error and leaves every session field cleared and
the WebSocket flag down. -/
theorem connect_error_clears_session_witness :
    ((Agent.connect_shoonya_broker { } (.returns { stat_ok := false }) .silent).2
        = Agent.ConnectStatus.error)
      ∧ ((Agent.connect_shoonya_broker { } (.returns { stat_ok := false }) .silent).1.shoonya_user_token
            = none
        ∧ (Agent.connect_shoonya_broker { } (.returns { stat_ok := false }) .silent).1.shoonya_user_id
            = none
        ∧ (Agent.connect_shoonya_broker { } (.returns { stat_ok := false }) .silent).1.shoonya_username
            = none
        ∧ (Agent.connect_shoonya_broker { } (.returns { stat_ok := false }) .silent).1.websocket_connected
            = false) :=
  ⟨rfl, connect_error_clears_session { } (.returns { stat_ok := false }) .silent rfl⟩
